import Mathlib

/-!
Verification of the goinfer example clients (src/examples/python/sse.py and
src/examples/python/summarize.py) against their natural-language specification.

The two scripts are shallowly embedded below:

* JSON values are modelled by the inductive `Json` (numbers are kept as
  decimal literals, mantissa times ten to the minus exponent, which is all
  the scripts ever construct; no claim compares numbers).
* The SSE event-dispatch loop of sse.py (lines 27-36) is modelled by
  `step` (the body of the for-loop for one event) and `dispatchLoop`
  (the whole loop).  An event whose data payload fails json.loads is
  modelled as `none`; a successfully parsed payload as `some j`.
  A Python KeyError (or TypeError on a non-mapping) from a subscript
  data[k] is modelled by a `none` result of `Json.get`, turning into the
  `StreamError.keyError k` outcome that aborts the loop, exactly as the
  uncaught exception aborts the script.
* What the script prints is the list of `Output` values: each
  print of data["content"] is an `Output.token`, the RESULT branch an
  `Output.result` carrying the whole event payload, the SYSTEM branch an
  `Output.system` carrying the whole payload.
* The transport step (requests.post) is modelled by `SseResponse` /
  `PostResponse`: `connFail` is a raised requests exception (connection
  refused, DNS failure), `ok status payload` a returned HTTP response.
  Neither script inspects the status code, and the model keeps the status
  as an ignored field, faithful to the code.
* summarize.py lines 36-41 (one blocking post, response.json(),
  data["text"]) are modelled by `summarizeComplete`.
-/

namespace Goinfer

/-- A JSON value, as produced by json.loads / consumed by requests' json=.
Numbers are decimal literals: `num m e` denotes m / 10^e. -/
inductive Json where
  | null : Json
  | bool (b : Bool) : Json
  | num (mantissa : Int) (exponent : Nat) : Json
  | str (s : String) : Json
  | arr (elems : List Json) : Json
  | obj (fields : List (String × Json)) : Json

/-- First-match association-list lookup (Python dict subscript on the
modelled objects; keys in the scripts are unique, so first-match agrees
with dict semantics). -/
def alookup {α : Type} (k : String) : List (String × α) → Option α
  | [] => none
  | (k2, v) :: rest => if k2 = k then some v else alookup k rest

/-- data[k] for a JSON value: `some v` when data is an object with field k,
`none` otherwise (a Python KeyError, or TypeError on a non-mapping). -/
def Json.get (j : Json) (k : String) : Option Json :=
  match j with
  | .obj fields => alookup k fields
  | _ => none

/-- Python's data[k] == "s" for the modelled values: true exactly when the
value is the string s. -/
def Json.isStr (j : Json) (s : String) : Bool :=
  match j with
  | .str t => t = s
  | _ => false

/-- One observable output of the sse.py loop body: a printed token
fragment, the printed RESULT payload, or a printed SYSTEM payload. -/
inductive Output where
  | token (content : Json) : Output
  | result (payload : Json) : Output
  | system (payload : Json) : Output

/-- An uncaught exception aborting the sse.py loop: json.loads failure on
an event's data, or a failing subscript data[k]. -/
inductive StreamError where
  | decodeError : StreamError
  | keyError (k : String) : StreamError

/-- Result of the loop body on a single event: produce an output and
continue, silently continue (the unhandled fall-through branch), or raise. -/
inductive StepResult where
  | out (o : Output) : StepResult
  | skip : StepResult
  | fail (e : StreamError) : StepResult

/-- The body of the sse.py for-loop for one event (lines 27-36).
The event's data is `none` when json.loads would raise. -/
def step (event : Option Json) : StepResult :=
  match event with
  | none => .fail .decodeError
  | some data =>
    match data.get "msg_type" with
    | none => .fail (.keyError "msg_type")
    | some mt =>
      if mt.isStr "token" then
        match data.get "content" with
        | none => .fail (.keyError "content")
        | some c => .out (.token c)
      else if mt.isStr "system" then
        match data.get "content" with
        | none => .fail (.keyError "content")
        | some c =>
          if c.isStr "result" then .out (.result data)
          else .out (.system data)
      else
        .skip

/-- The whole sse.py event loop: the outputs printed, in order, and the
uncaught exception that aborted the loop, if any.  Outputs printed before
a raise stay visible (each print flushes). -/
def dispatchLoop : List (Option Json) → List Output × Option StreamError
  | [] => ([], none)
  | e :: rest =>
    match step e with
    | .fail err => ([], some err)
    | .skip => dispatchLoop rest
    | .out o =>
      let r := dispatchLoop rest
      (o :: r.1, r.2)

/-- The transport outcome of requests.post(url, stream=True, ...) in
sse.py: a raised requests exception, or an HTTP response carrying a status
code and the SSE event stream of its body. -/
inductive SseResponse where
  | connFail : SseResponse
  | ok (status : Nat) (events : List (Option Json)) : SseResponse

/-- What the caller of sse.py observes overall. -/
inductive SseOutcome where
  | transportError : SseOutcome
  | streamed (outs : List Output) (err : Option StreamError) : SseOutcome

/-- The whole streaming flow of sse.py: a raised requests exception
propagates before any event is read; otherwise the body is handed to
SSEClient and dispatched event by event.  The status code is never
inspected (no raise_for_status in the script). -/
def sseComplete : SseResponse → SseOutcome
  | .connFail => .transportError
  | .ok _status events =>
    let r := dispatchLoop events
    .streamed r.1 r.2

/-- The transport outcome of requests.post(url, headers, json=payload) in
summarize.py: a raised requests exception, or an HTTP response whose body
is valid JSON (`some j`) or not (`none`, so response.json() raises). -/
inductive PostResponse where
  | connFail : PostResponse
  | ok (status : Nat) (body : Option Json) : PostResponse

/-- What the caller of summarize.py observes overall: `success t raw`
prints the text field t and the raw parsed body. -/
inductive NonStreamOutcome where
  | transportError : NonStreamOutcome
  | decodeError : NonStreamOutcome
  | keyError (k : String) : NonStreamOutcome
  | success (text : Json) (raw : Json) : NonStreamOutcome

/-- The whole non-streaming flow of summarize.py (lines 36-41): one
requests.post, then data = response.json(), then print(data["text"]) and
print(data).  The status code is never inspected. -/
def summarizeComplete : PostResponse → NonStreamOutcome
  | .connFail => .transportError
  | .ok _status body =>
    match body with
    | none => .decodeError
    | some data =>
      match data.get "text" with
      | none => .keyError "text"
      | some t => .success t data

/-- An HTTP request as the scripts hand it to requests.post. -/
structure HttpRequest where
  method : String
  url : String
  headers : List (String × String)
  body : Json

namespace Sse

def MODEL : String := "mistral-7b-instruct-v0.1.Q4_K_M.gguf"

def KEY : String := "c0ffee15c00150c0ffee15600dbadc0de15d3ad101cafe61f760cafe7357c0d3"

def TEMPLATE : String := "<s>[INST] \x7bprompt\x7d [/INST]"

def PROMPT : String := "list the planets in the solar system"

/-- The payload dict of sse.py lines 13-21. -/
def payload : Json :=
  .obj [
    ("model", .obj [("name", .str MODEL), ("ctx", .num 4096 0)]),
    ("prompt", .str PROMPT),
    ("template", .str TEMPLATE),
    ("stream", .bool true),
    ("temperature", .num 6 1)]

/-- The headers dict of sse.py line 23. -/
def headers : List (String × String) :=
  [("Authorization", "Bearer " ++ KEY), ("Accept", "text/event-stream")]

def url : String := "http://localhost:5143/completion"

/-- The request transmitted by requests.post in sse.py line 25. -/
def request : HttpRequest := ⟨"POST", url, headers, payload⟩

end Sse

namespace Summarize

def MODEL : String := "mistral-7b-instruct-v0.1.Q4_K_M.gguf"

def KEY : String := "c0ffee15c00150c0ffee15600dbadc0de15d3ad101cafe61f760cafe7357c0d3"

def TEMPLATE : String := "<s>[INST] \x7bprompt\x7d [/INST]"

def PROMPT : String := "summarize this text to the main bullet points:"

/-- The payload dict of summarize.py lines 26-33; `text` is the page text
extracted by trafilatura (an external collaborator, hence a parameter). -/
def payload (text : String) : Json :=
  .obj [
    ("model", .obj [("name", .str MODEL), ("ctx", .num 8192 0)]),
    ("prompt", .str (PROMPT ++ "\n\n" ++ text)),
    ("template", .str TEMPLATE)]

/-- The headers dict of summarize.py line 35. -/
def headers : List (String × String) :=
  [("Authorization", "Bearer " ++ KEY)]

def url : String := "http://localhost:5143/completion"

/-- The request transmitted by requests.post in summarize.py line 36. -/
def request (text : String) : HttpRequest := ⟨"POST", url, headers, payload text⟩

end Summarize

/-- A well-formed token event: msg_type "token" with a content field,
possibly followed by further fields. -/
def tokenEvent (c : Json) (extra : List (String × Json)) : Json :=
  .obj (("msg_type", .str "token") :: ("content", c) :: extra)

/-- A terminating event: msg_type "system" with content "result",
possibly followed by further fields (the completion payload). -/
def resultEvent (extra : List (String × Json)) : Json :=
  .obj (("msg_type", .str "system") :: ("content", .str "result") :: extra)

/-- Number of (possibly overlapping) occurrences of a character pattern. -/
def countOccChars (pat : List Char) : List Char → Nat
  | [] => 0
  | c :: rest =>
    (if List.isPrefixOf pat (c :: rest) then 1 else 0) + countOccChars pat rest

/-- Number of occurrences of the substring pat inside s. -/
def countOcc (pat s : String) : Nat := countOccChars pat.data s.data

/-! Helper lemmas about the dispatch loop. -/

theorem step_tokenEvent (c : Json) (extra : List (String × Json)) :
    step (some (tokenEvent c extra)) = .out (.token c) := rfl

theorem step_resultEvent (extra : List (String × Json)) :
    step (some (resultEvent extra)) = .out (.result (resultEvent extra)) := rfl

theorem dispatchLoop_cons_out {e : Option Json} {o : Output}
    (rest : List (Option Json)) (h : step e = .out o) :
    dispatchLoop (e :: rest) =
      (o :: (dispatchLoop rest).1, (dispatchLoop rest).2) := by
  simp [dispatchLoop, h]

theorem dispatchLoop_cons_skip {e : Option Json}
    (rest : List (Option Json)) (h : step e = .skip) :
    dispatchLoop (e :: rest) = dispatchLoop rest := by
  simp [dispatchLoop, h]

theorem dispatchLoop_cons_fail {e : Option Json} {err : StreamError}
    (rest : List (Option Json)) (h : step e = .fail err) :
    dispatchLoop (e :: rest) = ([], some err) := by
  simp [dispatchLoop, h]

/-- If a prefix of the stream is dispatched without raising, the loop on
the whole stream first produces that prefix's outputs, then behaves as
the loop on the remainder. -/
theorem dispatchLoop_append (xs ys : List (Option Json))
    (h : (dispatchLoop xs).2 = none) :
    dispatchLoop (xs ++ ys) =
      ((dispatchLoop xs).1 ++ (dispatchLoop ys).1, (dispatchLoop ys).2) := by
  induction xs with
  | nil => simp [dispatchLoop]
  | cons e xs ih =>
    cases hs : step e with
    | fail err => rw [dispatchLoop_cons_fail xs hs] at h; simp at h
    | skip =>
      rw [dispatchLoop_cons_skip xs hs] at h
      rw [List.cons_append, dispatchLoop_cons_skip (xs ++ ys) hs,
        dispatchLoop_cons_skip xs hs, ih h]
    | out o =>
      rw [dispatchLoop_cons_out xs hs] at h
      rw [List.cons_append, dispatchLoop_cons_out (xs ++ ys) hs,
        dispatchLoop_cons_out xs hs, ih h]
      simp

/-- A stream of well-formed token events dispatches to exactly the token
outputs, in order, with no error. -/
theorem dispatchLoop_tokens (cs : List (Json × List (String × Json))) :
    dispatchLoop (cs.map fun p => some (tokenEvent p.1 p.2)) =
      (cs.map fun p => Output.token p.1, none) := by
  induction cs with
  | nil => rfl
  | cons c cs ih =>
    simp only [List.map_cons]
    rw [dispatchLoop_cons_out _ (step_tokenEvent c.1 c.2), ih]

/-! Claim theorems. -/

/-- C1: a streaming response of N token events followed by one terminating
system/result event dispatches to exactly the N token outputs, each
carrying that event's content field, in arrival order, followed by exactly
one result output carrying the terminal event's whole payload, and no
error. -/
theorem stream_tokens_then_result
    (cs : List (Json × List (String × Json))) (extra : List (String × Json)) :
    dispatchLoop
        ((cs.map fun p => some (tokenEvent p.1 p.2)) ++ [some (resultEvent extra)]) =
      ((cs.map fun p => Output.token p.1) ++ [Output.result (resultEvent extra)],
        none) := by
  rw [dispatchLoop_append _ _ (by rw [dispatchLoop_tokens]),
    dispatchLoop_tokens,
    dispatchLoop_cons_out [] (step_resultEvent extra)]
  rfl

/-- C2 counterexample: a token event arriving after the system/result
event is still dispatched and produces observable output, so the stream is
not terminal after the result event. -/
theorem result_not_terminal_counterexample :
    dispatchLoop [some (resultEvent []), some (tokenEvent (.str "X") [])] =
      ([Output.result (resultEvent []), Output.token (.str "X")], none) := rfl

/-- C2 amended: after the system/result event the loop emits the result
output but does not stop; every subsequent event is processed exactly as
it would be at the head of a stream, so later events can produce further
observable output. -/
theorem result_event_loop_continues
    (extra : List (String × Json)) (rest : List (Option Json)) :
    dispatchLoop (some (resultEvent extra) :: rest) =
      (Output.result (resultEvent extra) :: (dispatchLoop rest).1,
        (dispatchLoop rest).2) :=
  dispatchLoop_cons_out rest (step_resultEvent extra)

/-- C3 counterexample: on an HTTP 401 response whose body carries a token
event, the token is forwarded to the caller and no TransportError is
raised — the script never inspects the status code. -/
theorem non_success_status_not_detected_counterexample :
    sseComplete (.ok 401 [some (tokenEvent (.str "x") [])]) =
      .streamed [Output.token (.str "x")] none := rfl

/-- C3 amended: a connection failure raised by requests.post fails the
call before any event is produced, but a non-success HTTP status is not
detected: the response body is dispatched as a stream regardless of the
status code, so no TransportError arises from the status alone. -/
theorem transport_error_only_on_connection_failure
    (s : Nat) (events : List (Option Json)) :
    sseComplete .connFail = .transportError ∧
    sseComplete (.ok s events) =
      .streamed (dispatchLoop events).1 (dispatchLoop events).2 :=
  ⟨rfl, rfl⟩

/-- C4 counterexample: a stream that ends after a single token event with
no system/result event terminates as a silent success — no error and no
result output — rather than a TransportError. -/
theorem missing_result_silent_counterexample :
    sseComplete (.ok 200 [some (tokenEvent (.str "a") [])]) =
      .streamed [Output.token (.str "a")] none := rfl

/-- C4 amended: a stream that ends without any system/result event
terminates silently: all token outputs are produced, no error is raised
and no result output (hence no CompletionResult) is ever observed. -/
theorem missing_result_is_silent
    (s : Nat) (cs : List (Json × List (String × Json))) :
    sseComplete (.ok s (cs.map fun p => some (tokenEvent p.1 p.2))) =
      .streamed (cs.map fun p => Output.token p.1) none := by
  show SseOutcome.streamed (dispatchLoop _).1 (dispatchLoop _).2 = _
  rw [dispatchLoop_tokens]

/-- C5: a non-streaming request with a successful HTTP response whose body
parses to a JSON object carrying a text field performs the single
exchange and returns exactly one result equal to the parsed body, whose
text field is the body's text field; no incremental events exist on this
path. -/
theorem nonstreaming_success_returns_parsed_body
    (s : Nat) (j t : Json) (h200 : 200 ≤ s) (h300 : s < 300)
    (htext : j.get "text" = some t) :
    summarizeComplete (.ok s (some j)) = .success t j := by
  simp [summarizeComplete, htext]

/-- C5 witness: body with text "answer" yields the result with text
"answer". -/
theorem nonstreaming_success_returns_parsed_body_witness :
    summarizeComplete (.ok 200 (some (.obj [("text", .str "answer")]))) =
      .success (.str "answer") (.obj [("text", .str "answer")]) :=
  nonstreaming_success_returns_parsed_body 200
    (.obj [("text", .str "answer")]) (.str "answer")
    (by decide) (by decide) rfl

/-- C6 counterexample: an event whose msg_type is neither token nor system
is silently dropped — no output, no error, the loop just moves on — rather
than being treated as a DecodeError condition. -/
theorem unknown_msg_type_dropped_counterexample :
    dispatchLoop
        [some (Json.obj [("msg_type", .str "weird"), ("content", .str "z")])] =
      ([], none) := rfl

/-- C6 amended: an event whose msg_type is present but is neither the
string token nor the string system falls through every branch of the
dispatch: it produces no output and no error, and processing continues
with the remaining events as if the event had not been there. -/
theorem unknown_msg_type_skipped
    (d mt : Json) (rest : List (Option Json))
    (hmt : d.get "msg_type" = some mt)
    (ht : mt.isStr "token" = false) (hs : mt.isStr "system" = false) :
    dispatchLoop (some d :: rest) = dispatchLoop rest := by
  refine dispatchLoop_cons_skip rest ?_
  simp [step, hmt, ht, hs]

/-- C6 witness: a weird-typed event between two token events vanishes from
the observable behaviour. -/
theorem unknown_msg_type_skipped_witness :
    dispatchLoop
        [some (Json.obj [("msg_type", .str "weird")]),
          some (tokenEvent (.str "a") [])] =
      dispatchLoop [some (tokenEvent (.str "a") [])] :=
  unknown_msg_type_skipped (Json.obj [("msg_type", .str "weird")])
    (.str "weird") [some (tokenEvent (.str "a") [])] rfl rfl rfl

/-- C7: when an event whose data payload is not valid JSON follows a
prefix that dispatched without error, the loop raises a decode error at
that event: the outputs produced for the prefix remain visible, and no
event after the malformed one is processed (nothing of the suffix appears
in the outcome). -/
theorem malformed_payload_aborts_stream
    (pre post : List (Option Json))
    (h : (dispatchLoop pre).2 = none) :
    dispatchLoop (pre ++ none :: post) =
      ((dispatchLoop pre).1, some .decodeError) := by
  rw [dispatchLoop_append pre (none :: post) h,
    dispatchLoop_cons_fail post
      (show step (none : Option Json) = .fail .decodeError from rfl)]
  simp

/-- C7 witness: one token, then a malformed payload, then a further token:
the first token stays visible, the loop fails with a decode error, and the
trailing token is never dispatched. -/
theorem malformed_payload_aborts_stream_witness :
    dispatchLoop
        [some (tokenEvent (.str "a") []), none,
          some (tokenEvent (.str "b") [])] =
      ([Output.token (.str "a")], some .decodeError) :=
  malformed_payload_aborts_stream [some (tokenEvent (.str "a") [])]
    [some (tokenEvent (.str "b") [])] rfl

/-- C8 counterexample: the request transmitted by sse.py still carries the
template with its one unsubstituted substitution point and the prompt as a
separate field, and the prompt does not occur inside the transmitted
template — the substitution is not consumed before transmission. -/
theorem template_not_substituted_counterexample :
    Sse.request.body.get "template" = some (.str Sse.TEMPLATE) ∧
    countOcc "\x7bprompt\x7d" Sse.TEMPLATE = 1 ∧
    countOcc Sse.PROMPT Sse.TEMPLATE = 0 ∧
    Sse.request.body.get "prompt" = some (.str Sse.PROMPT) :=
  ⟨rfl, by decide, by decide, rfl⟩

/-- C8 amended: every request carrying a template has a template with
exactly one substitution point, but template and prompt travel as separate
verbatim fields of the payload: the substitution is left to the server and
is not consumed by the client before transmission. -/
theorem template_one_placeholder_sent_verbatim (text : String) :
    countOcc "\x7bprompt\x7d" Sse.TEMPLATE = 1 ∧
    countOcc "\x7bprompt\x7d" Summarize.TEMPLATE = 1 ∧
    Sse.payload.get "template" = some (.str Sse.TEMPLATE) ∧
    Sse.payload.get "prompt" = some (.str Sse.PROMPT) ∧
    (Summarize.payload text).get "template" = some (.str Summarize.TEMPLATE) ∧
    (Summarize.payload text).get "prompt" =
      some (.str (Summarize.PROMPT ++ "\n\n" ++ text)) :=
  ⟨by decide, by decide, rfl, rfl, rfl, rfl⟩

/-- C9: both scripts transmit with method POST and an Authorization header
equal to Bearer followed by the supplied token; sse.py sets the stream
flag true and attaches the Accept text/event-stream header, while
summarize.py sends no stream flag (and needs no Accept header). -/
theorem request_method_and_headers (text : String) :
    Sse.request.method = "POST" ∧
    alookup "Authorization" Sse.request.headers =
      some ("Bearer " ++ Sse.KEY) ∧
    Sse.request.body.get "stream" = some (.bool true) ∧
    alookup "Accept" Sse.request.headers = some "text/event-stream" ∧
    (Summarize.request text).method = "POST" ∧
    alookup "Authorization" (Summarize.request text).headers =
      some ("Bearer " ++ Summarize.KEY) ∧
    (Summarize.request text).body.get "stream" = none :=
  ⟨rfl, rfl, rfl, rfl, rfl, rfl, rfl⟩

/-- C10: a well-parsed event payload lacking the msg_type key aborts the
loop with the key-lookup error for msg_type; a token event lacking the
content key aborts it with the key-lookup error for content; and on the
non-streaming path a parsed body lacking the text field ends in the
key-lookup error for text instead of a result. -/
theorem missing_keys_raise
    (d : Json) (rest : List (Option Json)) (b : Json) (s : Nat) :
    (d.get "msg_type" = none →
      dispatchLoop (some d :: rest) = ([], some (.keyError "msg_type"))) ∧
    (d.get "msg_type" = some (.str "token") → d.get "content" = none →
      dispatchLoop (some d :: rest) = ([], some (.keyError "content"))) ∧
    (b.get "text" = none →
      summarizeComplete (.ok s (some b)) = .keyError "text") := by
  refine ⟨fun h1 => ?_, fun h2 h3 => ?_, fun h4 => ?_⟩
  · exact dispatchLoop_cons_fail rest (by simp [step, h1])
  · exact dispatchLoop_cons_fail rest (by simp [step, h2, h3, Json.isStr])
  · simp [summarizeComplete, h4]

/-- C10 witness: concrete payloads missing msg_type, content and text
respectively. -/
theorem missing_keys_raise_witness :
    dispatchLoop [some (Json.obj [("foo", .str "x")])] =
      ([], some (.keyError "msg_type")) ∧
    dispatchLoop [some (Json.obj [("msg_type", .str "token")])] =
      ([], some (.keyError "content")) ∧
    summarizeComplete (.ok 200 (some (.obj [("other", .str "y")]))) =
      .keyError "text" :=
  ⟨(missing_keys_raise (Json.obj [("foo", .str "x")]) []
      (.obj [("other", .str "y")]) 200).1 rfl,
    (missing_keys_raise (Json.obj [("msg_type", .str "token")]) []
      (.obj [("other", .str "y")]) 200).2.1 rfl rfl,
    (missing_keys_raise (Json.obj [("foo", .str "x")]) []
      (.obj [("other", .str "y")]) 200).2.2 rfl⟩

end Goinfer
